import Mathlib

/-!
Verification development for `UnrealLidarSensor`
(src/Unreal/Plugins/AirSim/Source/UnrealSensors/UnrealLidarSensor.cpp).

The C++ sensor code is shallowly embedded over exact rationals (ℚ).  The
collaborators that the file calls but whose code is not part of the source
tree (AirLib `VectorMath`, `NedTransform`, the Unreal raycast and rotation
helpers, debug drawing and logging) are modelled from the specification as
explicit data: quaternions over ℚ, abstract trig oracles, abstract
transform/raycast functions, and an explicit event trace recording raycast
invocations, debug draws and log messages.
-/

namespace UrdfLidar

/-- 3-vector over ℚ, standing for the `float`/`FVector`/`Vector3r` triples of
the source (exact rationals in place of IEEE floats). -/
structure Vec3 where
  x : ℚ
  y : ℚ
  z : ℚ
deriving DecidableEq

def Vec3.add (a b : Vec3) : Vec3 := ⟨a.x + b.x, a.y + b.y, a.z + b.z⟩

def Vec3.sub (a b : Vec3) : Vec3 := ⟨a.x - b.x, a.y - b.y, a.z - b.z⟩

def Vec3.smul (c : ℚ) (v : Vec3) : Vec3 := ⟨c * v.x, c * v.y, c * v.z⟩

def vzero : Vec3 := ⟨0, 0, 0⟩

/-- Quaternion w + x·i + y·j + z·k over ℚ. -/
structure Quat where
  w : ℚ
  x : ℚ
  y : ℚ
  z : ℚ
deriving DecidableEq

def qmul (a b : Quat) : Quat :=
  ⟨a.w * b.w - a.x * b.x - a.y * b.y - a.z * b.z,
   a.w * b.x + a.x * b.w + a.y * b.z - a.z * b.y,
   a.w * b.y - a.x * b.z + a.y * b.w + a.z * b.x,
   a.w * b.z + a.x * b.y - a.y * b.x + a.z * b.w⟩

def qconj (a : Quat) : Quat := ⟨a.w, -a.x, -a.y, -a.z⟩

/-- The identity rotation; also the value of a default-initialized `FRotator`
or `FQuat` in the source. -/
def qid : Quat := ⟨1, 0, 0, 0⟩

/-- Modelled from the spec: AirLib `VectorMath::rotateVector(v, q, true)` is
repository code not under src/.  Rotation of a vector by a (unit) quaternion:
the vector part of q ⊗ v ⊗ q*. The Unreal `FRotator::RotateVector` used by the
direct-composition pipeline is modelled by the same map applied to the
rotator's quaternion. -/
def rotateVector (v : Vec3) (q : Quat) : Vec3 :=
  let r := qmul (qmul q ⟨0, v.x, v.y, v.z⟩) (qconj q)
  ⟨r.x, r.y, r.z⟩

/-- Modelled from the spec: AirLib `VectorMath::rotateQuaternion(q, ref, true)`
is repository code not under src/.  Conjugation of a quaternion into the frame
of `ref`: ref ⊗ q ⊗ ref*. -/
def rotateQuaternion (q ref : Quat) : Quat := qmul (qmul ref q) (qconj ref)

/-- Modelled from the spec: Unreal `FRotator::UnrotateVector` (engine code, not
under src/) applies the inverse rotation, i.e. rotation by the conjugate. -/
def unrotate (v : Vec3) (q : Quat) : Vec3 := rotateVector v (qconj q)

/-- The unit forward vector `VectorMath::front()` / `FVector(1, 0, 0)`. -/
def front : Vec3 := ⟨1, 0, 0⟩

/-- Modelled from the spec: AirLib `VectorMath::toQuaternion(pitch, roll, yaw)`
is repository code not under src/.  The spec only requires "a quaternion
representing (pitch, roll, yaw)"; we use the standard intrinsic Euler-angle
formula.  The trigonometric functions are abstract oracles `cosd`/`sind`
taking the angle in degrees (the source's degree→radian conversion composed
with cos/sin is absorbed into the oracle). -/
def toQuaternionDeg (cosd sind : ℚ → ℚ) (pitch roll yaw : ℚ) : Quat :=
  let t0 := cosd (yaw / 2)
  let t1 := sind (yaw / 2)
  let t2 := cosd (roll / 2)
  let t3 := sind (roll / 2)
  let t4 := cosd (pitch / 2)
  let t5 := sind (pitch / 2)
  ⟨t0 * t2 * t4 + t1 * t3 * t5,
   t0 * t3 * t4 - t1 * t2 * t5,
   t0 * t2 * t5 + t1 * t3 * t4,
   t1 * t2 * t4 - t0 * t3 * t5⟩

/-- Modelled from the spec: `NedTransform` is repository code not under src/.
The spec describes it as an optional pair of inverse maps
`toLocalFrame`/`toWorldFrame`; we model both directions as abstract
functions. -/
structure NedT where
  toLocalNed : Vec3 → Vec3
  fromLocalNed : Vec3 → Vec3

/-- Observable side effects of a tick, in emission order: raycast collaborator
invocations (with the ignore set and pawn flag as passed), debug draws
(color 0 = blue origin marker, 1 = red hit, 2 = green miss), and log
messages. -/
inductive Event where
  | raycastCall (origin endpoint : Vec3) (ignoreActors : List ℕ) (ignorePawn : Bool)
  | drawPoint (pos : Vec3) (color : ℕ)
  | logMessage (tag msg : String)
deriving DecidableEq

/-- External collaborators of the sensor: the optional reference-frame
transform, the owning actor's world rotation, the raycast collaborator
(`UAirBlueprintLib::GetObstacle`, returning the impact point on a hit), the
game-thread flag guarding the hit debug draw, and the trig oracles. -/
structure LidarEnv where
  nedTransform : Option NedT
  actorRotation : Quat
  raycast : Vec3 → Vec3 → Option Vec3
  isInGameThread : Bool
  cosd : ℚ → ℚ
  sind : ℚ → ℚ

/-- The fields of `msr::airlib::LidarSimpleParams` read by the source file. -/
structure LidarSimpleParams where
  number_of_channels : ℕ
  points_per_second : ℚ
  horizontal_rotation_frequency : ℚ
  range : ℚ
  vertical_FOV_upper : ℚ
  vertical_FOV_lower : ℚ
  ignore_pawn_collision : Bool
  draw_debug_points : Bool

/-- Position + orientation, as `msr::airlib::Pose`. -/
structure Pose where
  position : Vec3
  orientation : Quat

/-- Mutable state of the sensor instance: the laser angle table
(`laser_angles_`), the horizontal sweep angle (`current_horizontal_angle_`),
the ignore set (`ignore_collision_actors_`, actor identifiers), and the two
flags copied from the params at construction. -/
structure LidarState where
  laser_angles : List ℚ
  current_horizontal_angle : ℚ
  ignore_collision_actors : List ℕ
  ignore_pawn_collision : Bool
  draw_debug_points : Bool
deriving DecidableEq

/-- `UnrealLidarSensor::createLasers`: computes the per-channel vertical
angles.  With `number_of_lasers <= 0` the source returns early, leaving the
(initially empty) table empty; with one laser it stores `{0}`; otherwise it
stores `vertical_FOV_upper - i * delta_angle` for `i` in `[0, n)` with
`delta_angle = (upper - lower) / (n - 1)` (the `n - 1` is computed in unsigned
integer arithmetic before the float cast, hence the ℕ subtraction). -/
def createLasers (params : LidarSimpleParams) : List ℚ :=
  let n := params.number_of_channels
  if n = 0 then []
  else if n = 1 then [0]
  else
    let delta_angle := (params.vertical_FOV_upper - params.vertical_FOV_lower) /
      ((n - 1 : ℕ) : ℚ)
    (List.range n).map (fun (i : ℕ) => params.vertical_FOV_upper - (i : ℚ) * delta_angle)

/-- `UnrealLidarSensor::UnrealLidarSensor`: the constructor builds the laser
table, copies the two flags, and (when `ignore_pawn_collision` is set and the
actor is a `UrdfLink` with an owner) adds the enclosing owner to the ignore
set.  The owner discovery is modelled as an optional actor identifier. -/
def initState (params : LidarSimpleParams) (owner : Option ℕ) : LidarState :=
  ⟨createLasers params, 0,
   (if params.ignore_pawn_collision then
      match owner with
      | some o => [o]
      | none => []
    else []),
   params.ignore_pawn_collision, params.draw_debug_points⟩

/-- `FMath::RoundHalfFromZero`: round half away from zero
(`floor(x + 0.5)` for nonnegative x, `ceil(x - 0.5)` otherwise). -/
def roundHalfFromZero (x : ℚ) : ℤ := if 0 ≤ x then ⌊x + 1/2⌋ else ⌈x - 1/2⌉

/-- Conversion of the rounded value into the `uint32` variables of the source.
For values in `[0, 2^32)` this is the identity; for a negative value the C++
float→uint32 conversion is undefined behaviour, modelled here as the
wraparound modulo 2^32 that prevailing implementations produce. -/
def toUInt32 (i : ℤ) : ℕ := (i % (4294967296 : ℤ)).toNat

/-- `total_points_to_scan` before the cap:
`RoundHalfFromZero(points_per_second * delta_time)` stored into a `uint32`. -/
def rawTotalPoints (params : LidarSimpleParams) (delta_time : ℚ) : ℕ :=
  toUInt32 (roundHalfFromZero (params.points_per_second * delta_time))

/-- `total_points_to_scan` after the `MAX_POINTS_IN_SCAN = 1e+5` cap. -/
def clampedTotalPoints (params : LidarSimpleParams) (delta_time : ℚ) : ℕ :=
  if 100000 < rawTotalPoints params delta_time then 100000
  else rawTotalPoints params delta_time

/-- `points_to_scan_with_one_laser`:
`RoundHalfFromZero(total_points_to_scan / float(number_of_lasers))`.
With zero channels the ℚ division yields 0 (the C++ float division yields
+inf, but the per-channel loop below runs zero times either way, so every
observable output agrees). -/
def pointsPerLaser (params : LidarSimpleParams) (delta_time : ℚ) : ℕ :=
  toUInt32 (roundHalfFromZero
    ((clampedTotalPoints params delta_time : ℚ) / (params.number_of_channels : ℚ)))

/-- `angle_distance_of_tick = horizontal_rotation_frequency * 360 * delta_time`. -/
def angleDistanceOfTick (params : LidarSimpleParams) (delta_time : ℚ) : ℚ :=
  params.horizontal_rotation_frequency * 360 * delta_time

/-- `angle_distance_of_laser_measure = angle_distance_of_tick /
points_to_scan_with_one_laser`. -/
def angleDistanceOfLaserMeasure (params : LidarSimpleParams) (delta_time : ℚ) : ℚ :=
  angleDistanceOfTick params delta_time / (pointsPerLaser params delta_time : ℚ)

/-- Truncation toward zero, as the C `fmod` quotient. -/
def ratTrunc (x : ℚ) : ℤ := if 0 ≤ x then ⌊x⌋ else ⌈x⌉

/-- `std::fmod` over ℚ: `x - trunc(x / y) * y`. -/
def fmodQ (x y : ℚ) : ℚ := x - (ratTrunc (x / y) : ℚ) * y

/-- The ray origin computed once per tick:
`start = vehicle_pose.position + rotateVector(lidar_pose.position,
vehicle_pose.orientation, true)`. -/
def rayOrigin (lidar_pose vehicle_pose : Pose) : Vec3 :=
  Vec3.add vehicle_pose.position (rotateVector lidar_pose.position vehicle_pose.orientation)

/-- The per-ray quantities fixed before the raycast: the three rotators and
the start/end points actually passed to the raycast collaborator. -/
structure RaySetup where
  rayRot : Quat
  poseRot : Quat
  actorRot : Quat
  startVec : Vec3
  endVec : Vec3

/-- The value of the inner `end` declared at line 196 of the source: the
intended world-frame ray endpoint
`origin + range · rotate(front, v ⊗ (l ⊗ q ⊗ l*) ⊗ v*)` computed by the
reference-frame branch.  Line 196 writes `Vector3r end = ...`, a NEW
declaration that shadows the zero-initialized outer `end` of line 151 and
dies at the closing brace of line 198; the `endVec` assigned from it at
line 197 is then overwritten at line 205, which maps the OUTER `end` — still
the zero vector — through `fromLocalNed`.  This computed endpoint therefore
never reaches the raycast. -/
def nedComputedEnd (env : LidarEnv) (st : LidarState) (lidar_pose vehicle_pose : Pose)
    (start : Vec3) (laser : ℕ) (horizontalAngle : ℚ)
    (params : LidarSimpleParams) : Vec3 :=
  Vec3.add (Vec3.smul params.range (rotateVector front
    (rotateQuaternion (rotateQuaternion (toQuaternionDeg env.cosd env.sind
      (st.laser_angles.getD laser 0) 0 horizontalAngle)
      lidar_pose.orientation) vehicle_pose.orientation))) start

/-- The first half of `UnrealLidarSensor::shootLaser` (lines 148-206): ray
construction.  With no reference transform (`ned_transform_ == nullptr`) the
direct-composition pipeline rotates the unit forward vector by the ray
rotator, then the pose rotator, then the actor rotator, scales by the range
and translates by `start`.  With a reference transform, the branch computes
the quaternion pipeline's endpoint into a local `end` declared at line 196
that SHADOWS the zero-initialized outer `end` of line 151 (see
`nedComputedEnd`); the post-branch block at lines 202-206 then maps `start`
and the OUTER `end` — the zero vector — through `fromLocalNed`, overwriting
the line-197 `endVec`.  The endpoint actually passed to the raycast in this
pipeline is therefore `fromLocalNed(0)`, independent of angles, range and
origin, and the three rotator locals keep their default (identity) values.
The other dead locals of the source (the Euler-angle extractions
`ray_q_l_o*`/`ray_q_b_o*`, the unused quaternion `www`, and the ray-length
debug check) have no effect on any output and are omitted. -/
def raySetup (env : LidarEnv) (st : LidarState) (lidar_pose vehicle_pose : Pose)
    (start : Vec3) (laser : ℕ) (horizontalAngle : ℚ)
    (params : LidarSimpleParams) : RaySetup :=
  let vertical_angle := st.laser_angles.getD laser 0
  match env.nedTransform with
  | none =>
    let rayRotator := toQuaternionDeg env.cosd env.sind vertical_angle 0 horizontalAngle
    let poseRotator := lidar_pose.orientation
    let actorRotator := env.actorRotation
    let dir := rotateVector (rotateVector (rotateVector front rayRotator) poseRotator)
      actorRotator
    ⟨rayRotator, poseRotator, actorRotator, start,
      Vec3.add (Vec3.smul params.range dir) start⟩
  | some t =>
    ⟨qid, qid, qid, t.fromLocalNed start, t.fromLocalNed vzero⟩

/-- The un-rotation used by the source to express a world position in the
sensor's local frame in the direct-composition pipeline:
`poseRotator.UnrotateVector(actorRotator.UnrotateVector(p - startVec))`.
The miss branch of the source applies the same code path in both pipelines
(with identity rotators in the reference-frame pipeline). -/
def directLocalPoint (rs : RaySetup) (p : Vec3) : Vec3 :=
  unrotate (unrotate (Vec3.sub p rs.startVec) rs.actorRot) rs.poseRot

/-- Result of one `shootLaser` call: the returned flag, the output point, and
the side-effect trace (the raycast invocation followed by any debug draw). -/
structure ShootResult where
  hit : Bool
  point : Vec3
  events : List Event
deriving DecidableEq

/-- `UnrealLidarSensor::shootLaser` (lines 146-278).  After the ray setup the
raycast collaborator is invoked.  On a hit the point is `toLocalNed(impact)`
in the reference-frame pipeline and the un-rotated difference vector in the
direct pipeline, and a red debug point is drawn when on the game thread with
drawing enabled.  On a miss the difference `endVec - startVec` is un-rotated
(with identity rotators in the reference-frame pipeline, where `endVec` is
`fromLocalNed(0)` per the line-196 shadowing — see `raySetup`), a green debug
point is drawn, and the function still returns `true` (the `return false`
alternative is commented out in the source). -/
def shootLaser (env : LidarEnv) (st : LidarState) (lidar_pose vehicle_pose : Pose)
    (start : Vec3) (laser : ℕ) (horizontalAngle : ℚ)
    (params : LidarSimpleParams) : ShootResult :=
  let rs := raySetup env st lidar_pose vehicle_pose start laser horizontalAngle params
  let rayEvt := Event.raycastCall rs.startVec rs.endVec st.ignore_collision_actors
    st.ignore_pawn_collision
  match env.raycast rs.startVec rs.endVec with
  | some impact =>
    let drawEvts := if env.isInGameThread && st.draw_debug_points then
        [Event.drawPoint impact 1] else []
    let point := match env.nedTransform with
      | some t => t.toLocalNed impact
      | none => directLocalPoint rs impact
    ⟨true, point, rayEvt :: drawEvts⟩
  | none =>
    let drawEvts := if st.draw_debug_points then [Event.drawPoint rs.endVec 2] else []
    ⟨true, directLocalPoint rs rs.endVec, rayEvt :: drawEvts⟩

/-- The `ShootResult`s of one tick, in emission order: for each channel
`laser` in `[0, number_of_channels)` and each sample `i` in
`[0, points_to_scan_with_one_laser)`, the laser is shot at horizontal angle
`current_horizontal_angle_ + angle_distance_of_laser_measure * i`. -/
def tickResults (env : LidarEnv) (params : LidarSimpleParams) (st : LidarState)
    (lidar_pose vehicle_pose : Pose) (delta_time : ℚ) : List ShootResult :=
  (List.range params.number_of_channels).flatMap fun laser =>
    (List.range (pointsPerLaser params delta_time)).map fun (i : ℕ) =>
      shootLaser env st lidar_pose vehicle_pose (rayOrigin lidar_pose vehicle_pose) laser
        (st.current_horizontal_angle + angleDistanceOfLaserMeasure params delta_time * (i : ℚ))
        params

/-- Result of one `getPointCloud` call: the flat output buffer, the sensor
state after the call, and the side-effect trace. -/
structure TickResult where
  point_cloud : List ℚ
  state : LidarState
  events : List Event
deriving DecidableEq

/-- `UnrealLidarSensor::getPointCloud` (lines 73-143).  The caller's buffer
(`point_cloud_in`) is cleared first and never read, so the output does not
depend on it.  The scan budget is computed (with the capacity warning when the
cap applies); if `points_to_scan_with_one_laser` is zero the function returns
early with an empty cloud, leaving `current_horizontal_angle_` unchanged.
Otherwise the origin debug point is drawn when enabled, every
(channel, sample) pair is shot (each appending the three coordinates of its
point when `shootLaser` returns true), and finally
`current_horizontal_angle_` is advanced once by
`fmod(current + angle_distance_of_tick, 360)`. -/
def getPointCloud (env : LidarEnv) (params : LidarSimpleParams) (st : LidarState)
    (lidar_pose vehicle_pose : Pose) (delta_time : ℚ)
    (point_cloud_in : List ℚ) : TickResult :=
  let capEvts := if 100000 < rawTotalPoints params delta_time then
      [Event.logMessage "Lidar: " "Capping number of points to scan"] else []
  if pointsPerLaser params delta_time = 0 then
    ⟨[], st, capEvts⟩
  else
    let start := rayOrigin lidar_pose vehicle_pose
    let originDraw := if st.draw_debug_points then [Event.drawPoint start 0] else []
    let results := tickResults env params st lidar_pose vehicle_pose delta_time
    let cloud := results.flatMap fun r =>
      if r.hit then [r.point.x, r.point.y, r.point.z] else []
    ⟨cloud,
     ⟨st.laser_angles,
      fmodQ (st.current_horizontal_angle + angleDistanceOfTick params delta_time) 360,
      st.ignore_collision_actors, st.ignore_pawn_collision, st.draw_debug_points⟩,
     capEvts ++ originDraw ++ results.flatMap (fun r => r.events)⟩

/-! ### Helper lemmas -/

theorem qconj_qid : qconj qid = qid := by
  simp [qconj, qid]

theorem qmul_qid (a : Quat) : qmul a qid = a := by
  cases a
  simp [qmul, qid]

theorem qid_qmul (a : Quat) : qmul qid a = a := by
  cases a
  simp [qmul, qid]

theorem rotateVector_qid (v : Vec3) : rotateVector v qid = v := by
  cases v
  simp [rotateVector, qmul, qconj, qid]

theorem unrotate_qid (v : Vec3) : unrotate v qid = v := by
  rw [unrotate, qconj_qid, rotateVector_qid]

theorem rotateQuaternion_qid (q : Quat) : rotateQuaternion q qid = q := by
  rw [rotateQuaternion, qconj_qid, qid_qmul, qmul_qid]

theorem vadd_vzero (v : Vec3) : Vec3.add v vzero = v := by
  cases v
  simp [Vec3.add, vzero]

theorem vsub_vzero (v : Vec3) : Vec3.sub v vzero = v := by
  cases v
  simp [Vec3.sub, vzero]

/-! ### C2: the laser angle table -/

theorem createLasers_getElem (params : LidarSimpleParams)
    (hne0 : params.number_of_channels ≠ 0) (hne1 : params.number_of_channels ≠ 1)
    (i : ℕ) (hi : i < params.number_of_channels) :
    (createLasers params)[i]? = some (params.vertical_FOV_upper -
      (i : ℚ) * ((params.vertical_FOV_upper - params.vertical_FOV_lower) /
        ((params.number_of_channels - 1 : ℕ) : ℚ))) := by
  simp only [createLasers]
  rw [if_neg hne0, if_neg hne1, List.getElem?_map, List.getElem?_range hi]
  rfl

/-- C2: `createLasers` returns the empty table for zero channels, the table
`[0]` for one channel, and for `N ≥ 2` channels a table of length `N` whose
`i`-th entry is `fovUpper - i * (fovUpper - fovLower) / (N - 1)`, so that the
first entry is the upper FOV bound, the last entry is the lower FOV bound,
and all consecutive differences are equal. -/
theorem c2_createLasers (params : LidarSimpleParams) :
    (params.number_of_channels = 0 → createLasers params = []) ∧
    (params.number_of_channels = 1 → createLasers params = [0]) ∧
    (2 ≤ params.number_of_channels →
      (createLasers params).length = params.number_of_channels ∧
      (∀ i, i < params.number_of_channels →
        (createLasers params)[i]? = some (params.vertical_FOV_upper -
          (i : ℚ) * ((params.vertical_FOV_upper - params.vertical_FOV_lower) /
            ((params.number_of_channels - 1 : ℕ) : ℚ)))) ∧
      (createLasers params)[0]? = some params.vertical_FOV_upper ∧
      (createLasers params)[params.number_of_channels - 1]? =
        some params.vertical_FOV_lower ∧
      (∀ i a b, i + 1 < params.number_of_channels →
        (createLasers params)[i]? = some a →
        (createLasers params)[i + 1]? = some b →
        b - a = (params.vertical_FOV_lower - params.vertical_FOV_upper) /
          ((params.number_of_channels - 1 : ℕ) : ℚ))) := by
  refine ⟨fun h0 => by simp [createLasers, h0], fun h1 => by simp [createLasers, h1], ?_⟩
  intro h2
  have hne0 : params.number_of_channels ≠ 0 := by omega
  have hne1 : params.number_of_channels ≠ 1 := by omega
  have hform := createLasers_getElem params hne0 hne1
  have hcast : ((params.number_of_channels - 1 : ℕ) : ℚ) ≠ 0 := by
    have h : params.number_of_channels - 1 ≠ 0 := by omega
    exact_mod_cast Nat.cast_ne_zero.mpr h
  refine ⟨?_, hform, ?_, ?_, ?_⟩
  · simp only [createLasers]
    rw [if_neg hne0, if_neg hne1, List.length_map, List.length_range]
  · have := hform 0 (by omega)
    simpa using this
  · have hlt : params.number_of_channels - 1 < params.number_of_channels := by omega
    rw [hform _ hlt, Option.some_inj, ← mul_div_assoc, mul_div_cancel_left₀ _ hcast]
    ring
  · intro i a b hi ha hb
    have h1 := hform i (by omega)
    have h2' := hform (i + 1) hi
    rw [h1, Option.some_inj] at ha
    rw [h2', Option.some_inj] at hb
    rw [← ha, ← hb]
    push_cast
    field_simp
    ring

/-- Zero channels. -/
def params0 : LidarSimpleParams := ⟨0, 0, 0, 0, 0, 0, false, false⟩

/-- One channel. -/
def params1 : LidarSimpleParams := ⟨1, 0, 0, 0, 0, 0, false, false⟩

/-- Four channels, FOV from 3 down to 0. -/
def params4 : LidarSimpleParams := ⟨4, 0, 0, 0, 3, 0, false, false⟩

theorem c2_witness :
    createLasers params0 = [] ∧ createLasers params1 = [0] ∧
    (createLasers params4).length = 4 ∧
    (createLasers params4)[0]? = some 3 ∧
    (createLasers params4)[3]? = some 0 := by
  have h0 := (c2_createLasers params0).1 rfl
  have h1 := (c2_createLasers params1).2.1 rfl
  have h4 := (c2_createLasers params4).2.2 (by decide)
  refine ⟨h0, h1, h4.1, ?_, ?_⟩
  · simpa [params4] using h4.2.2.1
  · simpa [params4] using h4.2.2.2.1

/-! ### Scheduler and length helpers -/

theorem toUInt32_eq (i : ℤ) (h0 : 0 ≤ i) (h1 : i < 4294967296) : (toUInt32 i : ℤ) = i := by
  rw [toUInt32, Int.emod_eq_of_lt h0 h1, Int.toNat_of_nonneg h0]

theorem roundHalfFromZero_nonneg (x : ℚ) (h : 0 ≤ x) : 0 ≤ roundHalfFromZero x := by
  rw [roundHalfFromZero, if_pos h]
  exact Int.le_floor.mpr (by push_cast; linarith)

theorem roundHalfFromZero_le_int (x : ℚ) (b : ℤ) (h : x ≤ (b : ℚ)) :
    roundHalfFromZero x ≤ b := by
  rw [roundHalfFromZero]
  split
  · have hlt : (⌊x + 1/2⌋ : ℤ) < b + 1 := by
      rw [Int.floor_lt]
      push_cast
      linarith
    omega
  · calc ⌈x - 1/2⌉ ≤ ⌈(b : ℚ)⌉ := Int.ceil_le_ceil (by linarith)
      _ = b := Int.ceil_intCast b

theorem clampedTotalPoints_le (params : LidarSimpleParams) (delta_time : ℚ) :
    clampedTotalPoints params delta_time ≤ 100000 := by
  rw [clampedTotalPoints]
  split
  · exact le_refl _
  · omega

theorem list_sum_map_const {α : Type} (l : List α) (c : ℕ) :
    (l.map (fun _ => c)).sum = l.length * c := by
  induction l with
  | nil => simp
  | cons a t ih => simp [ih]; ring

theorem shootLaser_hit (env : LidarEnv) (st : LidarState) (lp vp : Pose)
    (start : Vec3) (laser : ℕ) (hAng : ℚ) (params : LidarSimpleParams) :
    (shootLaser env st lp vp start laser hAng params).hit = true := by
  rw [shootLaser]
  cases h : env.raycast (raySetup env st lp vp start laser hAng params).startVec
      (raySetup env st lp vp start laser hAng params).endVec <;> simp [h]

theorem shootLaser_no_log (env : LidarEnv) (st : LidarState) (lp vp : Pose)
    (start : Vec3) (laser : ℕ) (hAng : ℚ) (params : LidarSimpleParams)
    (a b : String) :
    Event.logMessage a b ∉ (shootLaser env st lp vp start laser hAng params).events := by
  rw [shootLaser]
  cases h : env.raycast (raySetup env st lp vp start laser hAng params).startVec
      (raySetup env st lp vp start laser hAng params).endVec with
  | some impact => simp only [h]; split <;> simp
  | none => simp only [h]; split <;> simp

theorem raySetup_ned (env : LidarEnv) (t : NedT) (st : LidarState) (lp vp : Pose)
    (start : Vec3) (laser : ℕ) (hAng : ℚ) (params : LidarSimpleParams)
    (hned : env.nedTransform = some t) :
    raySetup env st lp vp start laser hAng params =
      ⟨qid, qid, qid, t.fromLocalNed start, t.fromLocalNed vzero⟩ := by
  simp only [raySetup, hned]

theorem shootLaser_events_head (env : LidarEnv) (st : LidarState) (lp vp : Pose)
    (start : Vec3) (laser : ℕ) (hAng : ℚ) (params : LidarSimpleParams) :
    (shootLaser env st lp vp start laser hAng params).events.head? =
      some (Event.raycastCall (raySetup env st lp vp start laser hAng params).startVec
        (raySetup env st lp vp start laser hAng params).endVec
        st.ignore_collision_actors st.ignore_pawn_collision) := by
  rw [shootLaser]
  cases h : env.raycast (raySetup env st lp vp start laser hAng params).startVec
      (raySetup env st lp vp start laser hAng params).endVec <;> simp [h]

theorem tickResults_no_log (env : LidarEnv) (params : LidarSimpleParams)
    (st : LidarState) (lp vp : Pose) (dt : ℚ) (a b : String) :
    Event.logMessage a b ∉
      (tickResults env params st lp vp dt).flatMap (fun r => r.events) := by
  intro hmem
  rw [List.mem_flatMap] at hmem
  obtain ⟨r, hr, hin⟩ := hmem
  rw [tickResults, List.mem_flatMap] at hr
  obtain ⟨laser, _, hr2⟩ := hr
  rw [List.mem_map] at hr2
  obtain ⟨i, _, rfl⟩ := hr2
  exact shootLaser_no_log _ _ _ _ _ _ _ _ a b hin

theorem flatMap_const_length {α β : Type} (l : List α) (f : α → List β) (c : ℕ)
    (h : ∀ a ∈ l, (f a).length = c) : (l.flatMap f).length = l.length * c := by
  induction l with
  | nil => simp
  | cons a t ih =>
    rw [List.flatMap_cons, List.length_append,
      ih (fun x hx => h x (List.mem_cons_of_mem _ hx)), h a (List.mem_cons_self _ _),
      List.length_cons]
    ring

theorem tickResults_length (env : LidarEnv) (params : LidarSimpleParams)
    (st : LidarState) (lp vp : Pose) (dt : ℚ) :
    (tickResults env params st lp vp dt).length =
      params.number_of_channels * pointsPerLaser params dt := by
  rw [tickResults, flatMap_const_length _ _ (pointsPerLaser params dt)
    (fun laser _ => by simp), List.length_range]

theorem tickResults_mem_elim (env : LidarEnv) (params : LidarSimpleParams)
    (st : LidarState) (lp vp : Pose) (dt : ℚ) (r : ShootResult)
    (hr : r ∈ tickResults env params st lp vp dt) :
    ∃ laser i, r = shootLaser env st lp vp (rayOrigin lp vp) laser
      (st.current_horizontal_angle + angleDistanceOfLaserMeasure params dt * (i : ℚ))
      params := by
  rw [tickResults, List.mem_flatMap] at hr
  obtain ⟨laser, _, hr2⟩ := hr
  rw [List.mem_map] at hr2
  obtain ⟨i, _, rfl⟩ := hr2
  exact ⟨laser, i, rfl⟩

theorem getPointCloud_length (env : LidarEnv) (params : LidarSimpleParams)
    (st : LidarState) (lp vp : Pose) (dt : ℚ) (buf : List ℚ) :
    (getPointCloud env params st lp vp dt buf).point_cloud.length =
      3 * params.number_of_channels * pointsPerLaser params dt := by
  by_cases h : pointsPerLaser params dt = 0
  · simp [getPointCloud, h]
  · simp only [getPointCloud, if_neg h]
    have hc : ∀ r ∈ tickResults env params st lp vp dt,
        (if r.hit then [r.point.x, r.point.y, r.point.z] else ([] : List ℚ)).length = 3 := by
      intro r hr
      obtain ⟨laser, i, rfl⟩ := tickResults_mem_elim env params st lp vp dt r hr
      rw [shootLaser_hit]
      simp
    rw [flatMap_const_length _ _ 3 hc, tickResults_length]
    ring

/-! ### C3: the scan budget scheduler -/

/-- C3: for every tick, `total_points_to_scan` is the half-away-from-zero
rounding of `points_per_second * delta_time` (whenever that value is a
representable `uint32`), it is clamped to 100,000, the capacity warning is
logged exactly when the cap applies, and `points_to_scan_with_one_laser` is
the half-away-from-zero rounding of the clamped total over the channel
count. -/
theorem c3_scan_budget (env : LidarEnv) (params : LidarSimpleParams)
    (st : LidarState) (lidar_pose vehicle_pose : Pose) (delta_time : ℚ)
    (point_cloud_in : List ℚ)
    (h0 : 0 ≤ roundHalfFromZero (params.points_per_second * delta_time))
    (h1 : roundHalfFromZero (params.points_per_second * delta_time) < 4294967296) :
    ((rawTotalPoints params delta_time : ℤ) =
      roundHalfFromZero (params.points_per_second * delta_time)) ∧
    (clampedTotalPoints params delta_time = min (rawTotalPoints params delta_time) 100000) ∧
    ((Event.logMessage "Lidar: " "Capping number of points to scan") ∈
        (getPointCloud env params st lidar_pose vehicle_pose delta_time point_cloud_in).events
      ↔ 100000 < rawTotalPoints params delta_time) ∧
    ((pointsPerLaser params delta_time : ℤ) =
      roundHalfFromZero ((clampedTotalPoints params delta_time : ℚ) /
        (params.number_of_channels : ℚ))) := by
  refine ⟨toUInt32_eq _ h0 h1, ?_, ?_, ?_⟩
  · rw [clampedTotalPoints]
    rcases lt_or_le 100000 (rawTotalPoints params delta_time) with h | h
    · rw [if_pos h, min_eq_right (le_of_lt h)]
    · rw [if_neg (not_lt.mpr h), min_eq_left h]
  · constructor
    · intro hmem
      by_contra hcap
      revert hmem
      simp only [getPointCloud, if_neg hcap, ite_false]
      split
      · simp
      · intro hmem
        simp only [List.nil_append, List.mem_append] at hmem
        rcases hmem with h | h
        · revert h
          split <;> simp
        · exact tickResults_no_log _ _ _ _ _ _ _ _ h
    · intro hcap
      simp only [getPointCloud, if_pos hcap, ite_true]
      split
      · simp
      · simp
  · have hdiv0 : (0 : ℚ) ≤ (clampedTotalPoints params delta_time : ℚ) /
        (params.number_of_channels : ℚ) := by positivity
    have h4a := roundHalfFromZero_nonneg _ hdiv0
    have hle : (clampedTotalPoints params delta_time : ℚ) /
        (params.number_of_channels : ℚ) ≤ ((100000 : ℤ) : ℚ) := by
      rcases Nat.eq_zero_or_pos params.number_of_channels with hN | hN
      · rw [hN]
        norm_num
      · have h1' : (1 : ℚ) ≤ (params.number_of_channels : ℚ) := by exact_mod_cast hN
        have hds := div_le_self
          (by positivity : (0 : ℚ) ≤ (clampedTotalPoints params delta_time : ℚ)) h1'
        have hcl : (clampedTotalPoints params delta_time : ℚ) ≤ 100000 := by
          exact_mod_cast clampedTotalPoints_le params delta_time
        push_cast
        linarith
    have h4b := roundHalfFromZero_le_int _ _ hle
    exact toUInt32_eq _ h4a (by omega)

/-- Trig oracle used for concrete runs: exact cosine in degrees at 0, 90 and
180 (the only angles concrete runs evaluate it at); 1 elsewhere. -/
def trigCos : ℚ → ℚ := fun d => if d = 0 then 1 else if d = 90 then 0 else
  if d = 180 then -1 else 1

/-- Trig oracle used for concrete runs: exact sine in degrees at 0, 90 and
180; 0 elsewhere. -/
def trigSin : ℚ → ℚ := fun d => if d = 0 then 0 else if d = 90 then 1 else 0

/-- Environment with no reference transform, identity actor rotation, a
raycast collaborator that always misses, and the concrete trig oracles. -/
def envDirect : LidarEnv := ⟨none, qid, fun _ _ => none, true, trigCos, trigSin⟩

/-- The origin pose. -/
def poseZero : Pose := ⟨vzero, qid⟩

/-- Single-channel sensor state with sweep angle 0 and empty ignore set. -/
def stA : LidarState := ⟨[0], 0, [], false, false⟩

/-- One channel, 2 points/second, frequency 0, range 1, flat FOV. -/
def paramsA : LidarSimpleParams := ⟨1, 2, 0, 1, 0, 0, false, false⟩

theorem c3_witness :
    (0 ≤ roundHalfFromZero (paramsA.points_per_second * 1) ∧
     roundHalfFromZero (paramsA.points_per_second * 1) < 4294967296) ∧
    ((rawTotalPoints paramsA 1 : ℤ) =
      roundHalfFromZero (paramsA.points_per_second * 1) ∧
     clampedTotalPoints paramsA 1 = min (rawTotalPoints paramsA 1) 100000 ∧
     ((Event.logMessage "Lidar: " "Capping number of points to scan") ∈
        (getPointCloud envDirect paramsA stA poseZero poseZero 1 []).events
      ↔ 100000 < rawTotalPoints paramsA 1) ∧
     ((pointsPerLaser paramsA 1 : ℤ) =
      roundHalfFromZero ((clampedTotalPoints paramsA 1 : ℚ) /
        (paramsA.number_of_channels : ℚ)))) := by
  have h0 : 0 ≤ roundHalfFromZero (paramsA.points_per_second * 1) := by
    norm_num [paramsA, roundHalfFromZero]
  have h1 : roundHalfFromZero (paramsA.points_per_second * 1) < 4294967296 := by
    norm_num [paramsA, roundHalfFromZero]
  exact ⟨⟨h0, h1⟩, c3_scan_budget envDirect paramsA stA poseZero poseZero 1 [] h0 h1⟩

/-! ### C4: the scan state advance -/

/-- C4 (amended): whenever the per-laser budget is nonzero, the scan state is
advanced once, after ray generation, to
`fmod(old + horizontal_rotation_frequency * 360 * delta_time, 360)`, and every
ray of the tick uses the pre-advance value plus `i` times the per-sample
angular step; when the per-laser budget is zero the call returns early and the
scan state is left unchanged. -/
theorem c4_scan_state (env : LidarEnv) (params : LidarSimpleParams)
    (st : LidarState) (lp vp : Pose) (dt : ℚ) (buf : List ℚ) :
    (pointsPerLaser params dt ≠ 0 →
      (getPointCloud env params st lp vp dt buf).state.current_horizontal_angle =
        fmodQ (st.current_horizontal_angle + angleDistanceOfTick params dt) 360) ∧
    (pointsPerLaser params dt = 0 →
      (getPointCloud env params st lp vp dt buf).state = st) ∧
    (∀ laser i, laser < params.number_of_channels → i < pointsPerLaser params dt →
      shootLaser env st lp vp (rayOrigin lp vp) laser
        (st.current_horizontal_angle + angleDistanceOfLaserMeasure params dt * (i : ℚ))
        params ∈ tickResults env params st lp vp dt) := by
  refine ⟨fun h => by simp [getPointCloud, h], fun h => by simp [getPointCloud, h], ?_⟩
  intro laser i hl hi
  rw [tickResults, List.mem_flatMap]
  exact ⟨laser, List.mem_range.mpr hl, List.mem_map.mpr ⟨i, List.mem_range.mpr hi, rfl⟩⟩

/-- One channel, 1 point/second, 1 rev/s. -/
def paramsSlow : LidarSimpleParams := ⟨1, 1, 1, 1, 0, 0, false, false⟩

/-- C4 counterexample: with 1 point/second and delta-time 0.1 s the rounded
per-laser budget is zero, `getPointCloud` returns early, and the scan state
stays 0, although the claimed per-call update formula yields 36. -/
theorem c4_counterexample :
    (getPointCloud envDirect paramsSlow stA poseZero poseZero (1/10)
      []).state.current_horizontal_angle = 0 ∧
    fmodQ (stA.current_horizontal_angle + angleDistanceOfTick paramsSlow (1/10)) 360 = 36 ∧
    (0 : ℚ) ≠ 36 := by
  have hr1 : roundHalfFromZero (paramsSlow.points_per_second * (1/10)) = 0 := by
    norm_num [roundHalfFromZero, paramsSlow]
  have hraw : rawTotalPoints paramsSlow (1/10) = 0 := by
    rw [rawTotalPoints, hr1]
    decide
  have hcl : clampedTotalPoints paramsSlow (1/10) = 0 := by
    rw [clampedTotalPoints, hraw]
    norm_num
  have hr2 : roundHalfFromZero ((clampedTotalPoints paramsSlow (1/10) : ℚ) /
      (paramsSlow.number_of_channels : ℚ)) = 0 := by
    rw [hcl]
    norm_num [roundHalfFromZero, paramsSlow]
  have hppl : pointsPerLaser paramsSlow (1/10) = 0 := by
    rw [pointsPerLaser, hr2]
    decide
  refine ⟨?_, ?_, by norm_num⟩
  · simp only [getPointCloud]
    rw [if_pos hppl]
    rfl
  · norm_num [fmodQ, ratTrunc, angleDistanceOfTick, paramsSlow, stA]

/-- One channel, 100 points/second, 1 rev/s. -/
def paramsW : LidarSimpleParams := ⟨1, 100, 1, 1, 0, 0, false, false⟩

/-- Single-channel state with sweep angle 350. -/
def st350 : LidarState := ⟨[0], 350, [], false, false⟩

theorem c4_witness :
    pointsPerLaser paramsW (1/10) ≠ 0 ∧
    (getPointCloud envDirect paramsW st350 poseZero poseZero (1/10)
      []).state.current_horizontal_angle = 26 := by
  have hr1 : roundHalfFromZero (paramsW.points_per_second * (1/10)) = 10 := by
    norm_num [roundHalfFromZero, paramsW]
  have hraw : rawTotalPoints paramsW (1/10) = 10 := by
    rw [rawTotalPoints, hr1]
    decide
  have hcl : clampedTotalPoints paramsW (1/10) = 10 := by
    rw [clampedTotalPoints, hraw]
    norm_num
  have hr2 : roundHalfFromZero ((clampedTotalPoints paramsW (1/10) : ℚ) /
      (paramsW.number_of_channels : ℚ)) = 10 := by
    rw [hcl]
    norm_num [roundHalfFromZero, paramsW]
  have hppl : pointsPerLaser paramsW (1/10) = 10 := by
    rw [pointsPerLaser, hr2]
    decide
  have hne : pointsPerLaser paramsW (1/10) ≠ 0 := by rw [hppl]; norm_num
  refine ⟨hne, ?_⟩
  rw [(c4_scan_state envDirect paramsW st350 poseZero poseZero (1/10) []).1 hne]
  norm_num [fmodQ, ratTrunc, angleDistanceOfTick, paramsW, st350]

/-! ### C5: one point per (channel, sample) pair -/

/-- C5 (amended): every (channel, sample) pair contributes exactly one point
(the cloud always holds `3 * channelCount * pointsPerLaser` floats, misses
included).  On a miss the point is `directLocalPoint` applied to the ray's
`endVec`: in the direct pipeline this is the maximum-range endpoint through
the same un-rotation as the hit case, but in the reference-frame pipeline the
rotators are the identity and `endVec` is `fromLocalNed(0)` (the line-196
shadowing), so the miss point is `fromLocalNed(0) - fromLocalNed(origin)` —
not the maximum-range endpoint mapped like the hit case (`toLocalNed`). -/
theorem c5_dense_cloud (env : LidarEnv) (params : LidarSimpleParams)
    (st : LidarState) (lp vp : Pose) (dt : ℚ) (buf : List ℚ) :
    ((getPointCloud env params st lp vp dt buf).point_cloud.length =
      3 * params.number_of_channels * pointsPerLaser params dt) ∧
    (∀ start laser hAng,
      env.raycast (raySetup env st lp vp start laser hAng params).startVec
          (raySetup env st lp vp start laser hAng params).endVec = none →
      (shootLaser env st lp vp start laser hAng params).hit = true ∧
      (shootLaser env st lp vp start laser hAng params).point =
        directLocalPoint (raySetup env st lp vp start laser hAng params)
          (raySetup env st lp vp start laser hAng params).endVec) ∧
    (∀ start laser hAng impact, env.nedTransform = none →
      env.raycast (raySetup env st lp vp start laser hAng params).startVec
          (raySetup env st lp vp start laser hAng params).endVec = some impact →
      (shootLaser env st lp vp start laser hAng params).point =
        directLocalPoint (raySetup env st lp vp start laser hAng params) impact) ∧
    (∀ start laser hAng t, env.nedTransform = some t →
      env.raycast (raySetup env st lp vp start laser hAng params).startVec
          (raySetup env st lp vp start laser hAng params).endVec = none →
      (shootLaser env st lp vp start laser hAng params).point =
        Vec3.sub (t.fromLocalNed vzero) (t.fromLocalNed start)) := by
  refine ⟨getPointCloud_length env params st lp vp dt buf, ?_, ?_, ?_⟩
  · intro start laser hAng hmiss
    rw [shootLaser, hmiss]
    exact ⟨rfl, rfl⟩
  · intro start laser hAng impact hned hhit
    rw [shootLaser, hhit]
    simp only [hned]
  · intro start laser hAng t hned hmiss
    rw [shootLaser, hmiss]
    simp only [raySetup_ned env t st lp vp start laser hAng params hned, directLocalPoint,
      unrotate_qid]

/-- Four channels, 400 points/second. -/
def paramsB : LidarSimpleParams := ⟨4, 400, 0, 1, 0, 0, false, false⟩

/-- The identity reference transform (a legitimate instance of the abstract
inverse pair). -/
def idNed : NedT := ⟨fun v => v, fun v => v⟩

/-- Environment with the identity reference transform, identity actor
rotation, and an always-miss raycast collaborator. -/
def envNed : LidarEnv := ⟨some idNed, qid, fun _ _ => none, true, trigCos, trigSin⟩

/-- One channel, range 5. -/
def paramsC : LidarSimpleParams := ⟨1, 1, 1, 5, 0, 0, false, false⟩

/-- Vehicle pose at (1,0,0) with identity orientation. -/
def vpC : Pose := ⟨⟨1, 0, 0⟩, qid⟩

theorem c5_witness :
    (getPointCloud envDirect paramsB stA poseZero poseZero 1 []).point_cloud.length = 1200 ∧
    envDirect.raycast (raySetup envDirect stA poseZero poseZero vzero 0 0 paramsB).startVec
        (raySetup envDirect stA poseZero poseZero vzero 0 0 paramsB).endVec = none ∧
    (shootLaser envDirect stA poseZero poseZero vzero 0 0 paramsB).point =
      directLocalPoint (raySetup envDirect stA poseZero poseZero vzero 0 0 paramsB)
        (raySetup envDirect stA poseZero poseZero vzero 0 0 paramsB).endVec ∧
    (shootLaser envNed stA poseZero vpC ⟨1, 0, 0⟩ 0 0 paramsC).point =
      Vec3.sub (idNed.fromLocalNed vzero) (idNed.fromLocalNed ⟨1, 0, 0⟩) := by
  have hr1 : roundHalfFromZero (paramsB.points_per_second * 1) = 400 := by
    norm_num [roundHalfFromZero, paramsB]
  have hraw : rawTotalPoints paramsB 1 = 400 := by
    rw [rawTotalPoints, hr1]
    decide
  have hcl : clampedTotalPoints paramsB 1 = 400 := by
    rw [clampedTotalPoints, hraw]
    norm_num
  have hr2 : roundHalfFromZero ((clampedTotalPoints paramsB 1 : ℚ) /
      (paramsB.number_of_channels : ℚ)) = 100 := by
    rw [hcl]
    norm_num [roundHalfFromZero, paramsB]
  have hppl : pointsPerLaser paramsB 1 = 100 := by
    rw [pointsPerLaser, hr2]
    decide
  have hmiss : envDirect.raycast
      (raySetup envDirect stA poseZero poseZero vzero 0 0 paramsB).startVec
      (raySetup envDirect stA poseZero poseZero vzero 0 0 paramsB).endVec = none := rfl
  have hmissN : envNed.raycast
      (raySetup envNed stA poseZero vpC ⟨1, 0, 0⟩ 0 0 paramsC).startVec
      (raySetup envNed stA poseZero vpC ⟨1, 0, 0⟩ 0 0 paramsC).endVec = none := rfl
  refine ⟨?_, hmiss,
    ((c5_dense_cloud envDirect paramsB stA poseZero poseZero 1 []).2.1 vzero 0 0 hmiss).2,
    (c5_dense_cloud envNed paramsC stA poseZero vpC 1 []).2.2.2 ⟨1, 0, 0⟩ 0 0 idNed rfl
      hmissN⟩
  rw [(c5_dense_cloud envDirect paramsB stA poseZero poseZero 1 []).1, hppl]
  norm_num [paramsB]

/-- C5 counterexample: in the reference-frame pipeline (identity transform),
a miss ray from origin (1,0,0) with range 5 produces the point (−1,0,0) —
`fromLocalNed(0) − fromLocalNed(origin)`, because the raycast endpoint is the
shadowed zero vector — while the ray's maximum-range endpoint expressed like
the hit case, through `toLocalNed`, is (6,0,0). -/
theorem c5_counterexample :
    (shootLaser envNed stA poseZero vpC ⟨1, 0, 0⟩ 0 0 paramsC).point = ⟨-1, 0, 0⟩ ∧
    idNed.toLocalNed (nedComputedEnd envNed stA poseZero vpC ⟨1, 0, 0⟩ 0 0 paramsC) =
      ⟨6, 0, 0⟩ ∧
    ((⟨-1, 0, 0⟩ : Vec3) ≠ ⟨6, 0, 0⟩) := by
  have hrs : raySetup envNed stA poseZero vpC ⟨1, 0, 0⟩ 0 0 paramsC =
      ⟨qid, qid, qid, ⟨1, 0, 0⟩, vzero⟩ := by
    rw [raySetup_ned envNed idNed stA poseZero vpC ⟨1, 0, 0⟩ 0 0 paramsC rfl]
    rfl
  refine ⟨?_, ?_, ?_⟩
  · rw [shootLaser, hrs]
    show directLocalPoint ⟨qid, qid, qid, ⟨1, 0, 0⟩, vzero⟩ vzero = ⟨-1, 0, 0⟩
    rw [directLocalPoint]
    norm_num [unrotate_qid, Vec3.sub, vzero]
  · have hq : toQuaternionDeg trigCos trigSin 0 0 0 = qid := by
      norm_num [toQuaternionDeg, trigCos, trigSin, qid]
    simp only [nedComputedEnd, envNed, stA, poseZero, vpC, idNed, List.getD_cons_zero]
    rw [hq, rotateQuaternion_qid, rotateQuaternion_qid, rotateVector_qid]
    norm_num [Vec3.add, Vec3.smul, front, paramsC, Vec3.mk.injEq]
  · intro h
    have := congrArg Vec3.x h
    norm_num at this

/-! ### C6: negative delta-time -/

/-- One channel, 1 point/second. -/
def paramsNeg : LidarSimpleParams := ⟨1, 1, 0, 1, 0, 0, false, false⟩

/-- C6 (failing input): at delta-time −1 s with 1 point/second the rounded
total is −1, whose `uint32` conversion wraps to 4294967295; the cap then
applies, the per-laser budget becomes 100000 and the tick fires 100000 rays
producing 300000 floats — not the empty cloud with no raycast invocations the
claim requires for `deltaTime ≤ 0`. -/
theorem c6_negative_dt :
    rawTotalPoints paramsNeg (-1) = 4294967295 ∧
    clampedTotalPoints paramsNeg (-1) = 100000 ∧
    pointsPerLaser paramsNeg (-1) = 100000 ∧
    (getPointCloud envDirect paramsNeg stA poseZero poseZero (-1)
      []).point_cloud.length = 300000 ∧
    (tickResults envDirect paramsNeg stA poseZero poseZero (-1)).length = 100000 := by
  have hr : roundHalfFromZero (paramsNeg.points_per_second * (-1)) = -1 := by
    norm_num [roundHalfFromZero, paramsNeg, Int.ceil_eq_iff]
  have h1 : rawTotalPoints paramsNeg (-1) = 4294967295 := by
    rw [rawTotalPoints, hr]
    decide
  have h2 : clampedTotalPoints paramsNeg (-1) = 100000 := by
    rw [clampedTotalPoints, h1]
    norm_num
  have h3 : pointsPerLaser paramsNeg (-1) = 100000 := by
    have hr2 : roundHalfFromZero ((clampedTotalPoints paramsNeg (-1) : ℚ) /
        (paramsNeg.number_of_channels : ℚ)) = 100000 := by
      rw [h2]
      norm_num [roundHalfFromZero, paramsNeg]
    rw [pointsPerLaser, hr2]
    decide
  refine ⟨h1, h2, h3, ?_, ?_⟩
  · rw [getPointCloud_length, h3]
    norm_num [paramsNeg]
  · rw [tickResults_length, h3]
    norm_num [paramsNeg]

/-! ### C7: the two coordinate pipelines -/

/-- Direct-composition environment with given raycast collaborator, game
thread flag and trig oracles; identity actor rotation. -/
def mkEnvDirect (rc : Vec3 → Vec3 → Option Vec3) (g : Bool) (c s : ℚ → ℚ) : LidarEnv :=
  ⟨none, qid, rc, g, c, s⟩

/-- Reference-frame environment (identity transform) with given raycast
collaborator, game thread flag and trig oracles; identity actor rotation. -/
def mkEnvNed (rc : Vec3 → Vec3 → Option Vec3) (g : Bool) (c s : ℚ → ℚ) : LidarEnv :=
  ⟨some idNed, qid, rc, g, c, s⟩

/-- C7 (amended): the two pipelines do NOT produce equivalent physical rays.
Whenever the reference transform is available, the endpoint passed to the
raycast collaborator is `fromLocalNed(0)` — independent of channel, angles,
range and the ray origin — because the line-196 `end` shadows the
zero-initialized outer variable that line 205 maps, while the direct pipeline
passes origin + range · direction.  Only the hit-point conversion agrees in a
restricted configuration: with identity sensor-mount, vehicle and actor
orientations, the identity reference transform and the ray origin at the
coordinate origin, a synthetic hit at any world position `p` is reported as
the sensor-local point `p` by both pipelines. -/
theorem c7_pipelines (c s : ℚ → ℚ) (g : Bool) (st : LidarState) (laser : ℕ)
    (hAng : ℚ) (params : LidarSimpleParams) (p : Vec3) :
    (∀ (env : LidarEnv) (t : NedT) (lp vp : Pose) (start : Vec3),
      env.nedTransform = some t →
      (raySetup env st lp vp start laser hAng params).endVec = t.fromLocalNed vzero) ∧
    (shootLaser (mkEnvDirect (fun _ _ => some p) g c s) st poseZero poseZero vzero laser
      hAng params).point = p ∧
    (shootLaser (mkEnvNed (fun _ _ => some p) g c s) st poseZero poseZero vzero laser
      hAng params).point = p := by
  have hrsD : raySetup (mkEnvDirect (fun _ _ => some p) g c s) st poseZero poseZero vzero
      laser hAng params =
      ⟨toQuaternionDeg c s (st.laser_angles.getD laser 0) 0 hAng, qid, qid, vzero,
       Vec3.add (Vec3.smul params.range (rotateVector front
         (toQuaternionDeg c s (st.laser_angles.getD laser 0) 0 hAng))) vzero⟩ := by
    simp only [raySetup, mkEnvDirect, poseZero]
    rw [rotateVector_qid, rotateVector_qid]
  refine ⟨?_, ?_, ?_⟩
  · intro env t lp vp start hned
    rw [raySetup_ned env t st lp vp start laser hAng params hned]
  · rw [shootLaser, hrsD]
    show directLocalPoint ⟨toQuaternionDeg c s (st.laser_angles.getD laser 0) 0 hAng,
      qid, qid, vzero,
      Vec3.add (Vec3.smul params.range (rotateVector front
        (toQuaternionDeg c s (st.laser_angles.getD laser 0) 0 hAng))) vzero⟩ p = p
    rw [directLocalPoint]
    simp only [vsub_vzero, unrotate_qid]
  · rfl

theorem c7_witness :
    (raySetup envNed stA poseZero vpC ⟨1, 0, 0⟩ 0 0 paramsNeg).endVec =
      idNed.fromLocalNed vzero ∧
    (shootLaser (mkEnvDirect (fun _ _ => some ⟨2, 3, 4⟩) true trigCos trigSin) stA poseZero
      poseZero vzero 0 0 paramsNeg).point = ⟨2, 3, 4⟩ ∧
    (shootLaser (mkEnvNed (fun _ _ => some ⟨2, 3, 4⟩) true trigCos trigSin) stA poseZero
      poseZero vzero 0 0 paramsNeg).point = ⟨2, 3, 4⟩ := by
  have h := c7_pipelines trigCos trigSin true stA 0 0 paramsNeg ⟨2, 3, 4⟩
  exact ⟨h.1 envNed idNed poseZero vpC ⟨1, 0, 0⟩ rfl, h.2.1, h.2.2⟩

/-- C7 counterexample: with equivalent identity poses, identity reference
transform, zero angles, range 1 and ray origin at the coordinate origin, the
direct-composition pipeline passes the raycast the endpoint (1,0,0) while the
reference-frame pipeline passes (0,0,0) (the shadowed zero vector mapped by
the identity transform): the two pipelines do not yield equivalent physical
rays even in this benign configuration. -/
theorem c7_counterexample :
    (raySetup (mkEnvDirect (fun _ _ => none) true trigCos trigSin) stA poseZero poseZero
      vzero 0 0 paramsNeg).endVec = ⟨1, 0, 0⟩ ∧
    (raySetup (mkEnvNed (fun _ _ => none) true trigCos trigSin) stA poseZero poseZero
      vzero 0 0 paramsNeg).endVec = vzero ∧
    ((⟨1, 0, 0⟩ : Vec3) ≠ vzero) := by
  have hq : toQuaternionDeg trigCos trigSin 0 0 0 = qid := by
    norm_num [toQuaternionDeg, trigCos, trigSin, qid]
  refine ⟨?_, ?_, ?_⟩
  · simp only [raySetup, mkEnvDirect, stA, poseZero, List.getD_cons_zero]
    rw [hq, rotateVector_qid, rotateVector_qid, rotateVector_qid]
    norm_num [front, Vec3.add, Vec3.smul, vzero, paramsNeg, Vec3.mk.injEq]
  · rw [raySetup_ned (mkEnvNed (fun _ _ => none) true trigCos trigSin) idNed stA poseZero
      poseZero vzero 0 0 paramsNeg rfl]
    rfl
  · intro h
    have hx := congrArg Vec3.x h
    norm_num [vzero] at hx

/-! ### C1: the reference-frame ray endpoint -/

/-- C1 (failing input): the claim requires the raycast endpoint of the
reference-frame pipeline to be
`fromLocalNed(origin + range · rotate(front, v ⊗ (l ⊗ q ⊗ l*) ⊗ v*))`, and
lines 174-197 of the source compute exactly that value into the inner `end`
of line 196 — but that declaration shadows the zero-initialized outer `end`
of line 151, so line 205 passes `fromLocalNed(0)` to the raycast instead.
Concretely (identity transform, identity orientations, origin (1,0,0),
range 5, zero angles): the endpoint passed is (0,0,0), the first event
records the raycast at origin (1,0,0) and endpoint (0,0,0), and the claimed
endpoint — the mapped `nedComputedEnd` — is (6,0,0). -/
theorem c1_ned_endpoint_bug :
    (raySetup envNed stA poseZero vpC ⟨1, 0, 0⟩ 0 0 paramsC).endVec = vzero ∧
    (shootLaser envNed stA poseZero vpC ⟨1, 0, 0⟩ 0 0 paramsC).events.head? =
      some (Event.raycastCall ⟨1, 0, 0⟩ vzero [] false) ∧
    idNed.fromLocalNed (nedComputedEnd envNed stA poseZero vpC ⟨1, 0, 0⟩ 0 0 paramsC) =
      ⟨6, 0, 0⟩ ∧
    (vzero ≠ (⟨6, 0, 0⟩ : Vec3)) := by
  have hq : toQuaternionDeg trigCos trigSin 0 0 0 = qid := by
    norm_num [toQuaternionDeg, trigCos, trigSin, qid]
  refine ⟨?_, ?_, ?_, ?_⟩
  · rw [raySetup_ned envNed idNed stA poseZero vpC ⟨1, 0, 0⟩ 0 0 paramsC rfl]
    rfl
  · rw [shootLaser_events_head,
      raySetup_ned envNed idNed stA poseZero vpC ⟨1, 0, 0⟩ 0 0 paramsC rfl]
    rfl
  · simp only [nedComputedEnd, envNed, stA, poseZero, vpC, idNed, List.getD_cons_zero]
    rw [hq, rotateQuaternion_qid, rotateQuaternion_qid, rotateVector_qid]
    norm_num [Vec3.add, Vec3.smul, front, paramsC, Vec3.mk.injEq]
  · intro h
    have := congrArg Vec3.x h
    norm_num [vzero] at this

/-! ### C8: shape and order of the output buffer -/

/-- C8: the output cloud does not depend on the caller's previous buffer
contents, its length is a multiple of three, and it equals the flat
concatenation of the (x, y, z) triples in (channel, sample) emission order:
all samples of channel 0 in increasing sample index, then channel 1, and so
on. -/
theorem c8_cloud_shape (env : LidarEnv) (params : LidarSimpleParams)
    (st : LidarState) (lp vp : Pose) (dt : ℚ) (buf buf2 : List ℚ) :
    getPointCloud env params st lp vp dt buf = getPointCloud env params st lp vp dt buf2 ∧
    3 ∣ (getPointCloud env params st lp vp dt buf).point_cloud.length ∧
    (getPointCloud env params st lp vp dt buf).point_cloud =
      (List.range params.number_of_channels).flatMap (fun laser =>
        (List.range (pointsPerLaser params dt)).flatMap (fun (i : ℕ) =>
          [(shootLaser env st lp vp (rayOrigin lp vp) laser
              (st.current_horizontal_angle + angleDistanceOfLaserMeasure params dt * (i : ℚ))
              params).point.x,
           (shootLaser env st lp vp (rayOrigin lp vp) laser
              (st.current_horizontal_angle + angleDistanceOfLaserMeasure params dt * (i : ℚ))
              params).point.y,
           (shootLaser env st lp vp (rayOrigin lp vp) laser
              (st.current_horizontal_angle + angleDistanceOfLaserMeasure params dt * (i : ℚ))
              params).point.z])) := by
  refine ⟨rfl, ⟨params.number_of_channels * pointsPerLaser params dt,
    by rw [getPointCloud_length]; ring⟩, ?_⟩
  by_cases h : pointsPerLaser params dt = 0
  · simp [getPointCloud, h]
  · simp only [getPointCloud, if_neg h, tickResults]
    rw [List.bind_assoc]
    refine List.flatMap_congr fun laser _ => ?_
    rw [List.flatMap_map]
    refine List.flatMap_congr fun i _ => ?_
    rw [shootLaser_hit]
    rfl

/-! ### C9: debug drawing does not influence the outputs -/

/-- The sensor state with the debug-draw flag replaced. -/
def setDrawFlag (st : LidarState) (b : Bool) : LidarState :=
  ⟨st.laser_angles, st.current_horizontal_angle, st.ignore_collision_actors,
   st.ignore_pawn_collision, b⟩

theorem setDrawFlag_curr (st : LidarState) (b : Bool) :
    (setDrawFlag st b).current_horizontal_angle = st.current_horizontal_angle := rfl

theorem shootLaser_point_flag (env : LidarEnv) (st : LidarState) (lp vp : Pose)
    (start : Vec3) (laser : ℕ) (hAng : ℚ) (params : LidarSimpleParams) (b : Bool) :
    (shootLaser env (setDrawFlag st b) lp vp start laser hAng params).point =
      (shootLaser env st lp vp start laser hAng params).point := by
  have hrs : raySetup env (setDrawFlag st b) lp vp start laser hAng params =
      raySetup env st lp vp start laser hAng params := by
    cases hn : env.nedTransform <;> simp [raySetup, hn, setDrawFlag]
  rw [shootLaser, shootLaser, hrs]
  cases hray : env.raycast (raySetup env st lp vp start laser hAng params).startVec
      (raySetup env st lp vp start laser hAng params).endVec <;> simp [hray]

/-- C9: the point cloud and the post-tick scan state are identical whatever
the value of the debug-draw flag; drawing only adds `drawPoint` events. -/
theorem c9_debug_noninterference (env : LidarEnv) (params : LidarSimpleParams)
    (st : LidarState) (lp vp : Pose) (dt : ℚ) (buf : List ℚ) (b1 b2 : Bool) :
    (getPointCloud env params (setDrawFlag st b1) lp vp dt buf).point_cloud =
      (getPointCloud env params (setDrawFlag st b2) lp vp dt buf).point_cloud ∧
    (getPointCloud env params (setDrawFlag st b1) lp vp dt
        buf).state.current_horizontal_angle =
      (getPointCloud env params (setDrawFlag st b2) lp vp dt
        buf).state.current_horizontal_angle := by
  by_cases h : pointsPerLaser params dt = 0
  · simp only [getPointCloud]
    rw [if_pos h, if_pos h]
    exact ⟨rfl, rfl⟩
  · constructor
    · simp only [getPointCloud, if_neg h, tickResults, setDrawFlag_curr]
      rw [List.bind_assoc, List.bind_assoc]
      refine List.flatMap_congr fun laser _ => ?_
      rw [List.flatMap_map, List.flatMap_map]
      refine List.flatMap_congr fun i _ => ?_
      rw [shootLaser_hit, shootLaser_hit, shootLaser_point_flag, shootLaser_point_flag]
    · simp only [getPointCloud, if_neg h, setDrawFlag_curr]

/-! ### C10: only the scan state is mutated -/

theorem getPointCloud_state_frame (env : LidarEnv) (params : LidarSimpleParams)
    (st : LidarState) (lp vp : Pose) (dt : ℚ) (buf : List ℚ) :
    (getPointCloud env params st lp vp dt buf).state.laser_angles = st.laser_angles ∧
    (getPointCloud env params st lp vp dt buf).state.ignore_collision_actors =
      st.ignore_collision_actors ∧
    (getPointCloud env params st lp vp dt buf).state.ignore_pawn_collision =
      st.ignore_pawn_collision ∧
    (getPointCloud env params st lp vp dt buf).state.draw_debug_points =
      st.draw_debug_points := by
  by_cases h : pointsPerLaser params dt = 0
  · simp only [getPointCloud]
    rw [if_pos h]
    exact ⟨rfl, rfl, rfl, rfl⟩
  · simp only [getPointCloud]
    rw [if_neg h]
    exact ⟨rfl, rfl, rfl, rfl⟩

/-- Repeated ticks with the same collaborators, poses and delta-time. -/
def runTicks (env : LidarEnv) (params : LidarSimpleParams) (lp vp : Pose) (dt : ℚ) :
    ℕ → LidarState → LidarState
  | 0, st => st
  | n + 1, st =>
    runTicks env params lp vp dt n (getPointCloud env params st lp vp dt []).state

theorem runTicks_frame (env : LidarEnv) (params : LidarSimpleParams) (lp vp : Pose)
    (dt : ℚ) (n : ℕ) (st : LidarState) :
    (runTicks env params lp vp dt n st).laser_angles = st.laser_angles ∧
    (runTicks env params lp vp dt n st).ignore_collision_actors =
      st.ignore_collision_actors ∧
    (runTicks env params lp vp dt n st).ignore_pawn_collision =
      st.ignore_pawn_collision ∧
    (runTicks env params lp vp dt n st).draw_debug_points = st.draw_debug_points := by
  induction n generalizing st with
  | zero => exact ⟨rfl, rfl, rfl, rfl⟩
  | succ n ih =>
    have h1 := getPointCloud_state_frame env params st lp vp dt []
    have h2 := ih (getPointCloud env params st lp vp dt []).state
    rw [runTicks]
    exact ⟨h2.1.trans h1.1, h2.2.1.trans h1.2.1, h2.2.2.1.trans h1.2.2.1,
      h2.2.2.2.trans h1.2.2.2⟩

/-- C10: a call to `getPointCloud` leaves the laser angle table, the ignore
set and both configuration flags unchanged, and so does any number of
successive ticks; only the scan state scalar (and the caller-owned output)
changes. -/
theorem c10_frame (env : LidarEnv) (params : LidarSimpleParams) (lp vp : Pose)
    (dt : ℚ) (buf : List ℚ) (st : LidarState) (n : ℕ) :
    ((getPointCloud env params st lp vp dt buf).state.laser_angles = st.laser_angles ∧
     (getPointCloud env params st lp vp dt buf).state.ignore_collision_actors =
       st.ignore_collision_actors ∧
     (getPointCloud env params st lp vp dt buf).state.ignore_pawn_collision =
       st.ignore_pawn_collision ∧
     (getPointCloud env params st lp vp dt buf).state.draw_debug_points =
       st.draw_debug_points) ∧
    ((runTicks env params lp vp dt n st).laser_angles = st.laser_angles ∧
     (runTicks env params lp vp dt n st).ignore_collision_actors =
       st.ignore_collision_actors ∧
     (runTicks env params lp vp dt n st).ignore_pawn_collision =
       st.ignore_pawn_collision ∧
     (runTicks env params lp vp dt n st).draw_debug_points = st.draw_debug_points) :=
  ⟨getPointCloud_state_frame env params st lp vp dt buf,
   runTicks_frame env params lp vp dt n st⟩

end UrdfLidar
